import Mathlib

/-!
Verification development for the WCS scaler module
(`datacube_ows/wcs_scaler.py`).

The Python module is shallowly embedded as follows:

* numeric coordinate values are rationals (`ℚ`); Python `None` is `none`;
* Python exceptions (and runtime errors such as `AttributeError`,
  `TypeError`, `ZeroDivisionError`) are modelled with `Except Err`;
* `SpatialParameter` is a pair of slots plus the label-resolution function
  `is_x_dim`; because the Python class resolves labels through the CRS
  definition captured at construction time (it is never updated when the
  scaler's CRS changes), the scaler state carries that fixed definition in
  the field `pdef`;
* layer metadata (`published_CRSs`, `grids`, `ranges.bboxes`,
  `native_CRS_def`) are read-only total lookup tables, and the external
  geometry/CRS reprojection capability is an abstract oracle `Geo`.
-/

/-- Exceptions raised by the scaler, plus the runtime errors the code can
trigger (`AttributeError` from the undefined `subsetted_x` attribute,
`TypeError` from arithmetic on `None`, `ZeroDivisionError`). -/
inductive Err where
  | unknownDimension
  | overspecifiedDimension
  | illegalSize
  | attributeError
  | pyTypeError
  | zeroDivisionError
deriving DecidableEq

deriving instance DecidableEq for Except

/-- A published CRS definition: the axis-name part used by the scaler. -/
structure CrsDef where
  horizontal_coord : String
  vertical_coord : String
deriving DecidableEq

/-- A native grid for a CRS: per-axis resolution `(x_res, y_res)`. -/
structure Grid where
  resolution : ℚ × ℚ
deriving DecidableEq

/-- A per-CRS cached bounding box from `layer.ranges["bboxes"]`. -/
structure LayerBBox where
  left : ℚ
  right : ℚ
  bottom : ℚ
  top : ℚ
deriving DecidableEq

/-- The external geometry/CRS reprojection capability, a black box per the
design: reproject a point, or return the axis-aligned bounding box of a
reprojected line / rectangle built from the current min/max corners. -/
structure Geo where
  projectPoint : String → String → ℚ × ℚ → ℚ × ℚ
  lineBBox : String → String → ℚ × ℚ → ℚ × ℚ → LayerBBox
  polyBBox : String → String → ℚ × ℚ → ℚ × ℚ → LayerBBox

/-- Read-only layer metadata consumed by the scaler. -/
structure Layer where
  published_CRSs : String → CrsDef
  native_CRS : String
  native_CRS_def : CrsDef
  grids : String → Grid
  bboxes : String → LayerBBox

/-- The two slots of a `SpatialParameter`. -/
structure XY (α : Type) where
  x : α
  y : α
deriving DecidableEq

/-- Read the slot selected by a resolved label (`true` = x axis). -/
def XY.get {α : Type} (p : XY α) (isX : Bool) : α :=
  if isX then p.x else p.y

/-- Write the slot selected by a resolved label (`true` = x axis). -/
def XY.set {α : Type} (p : XY α) (isX : Bool) (v : α) : XY α :=
  if isX then { p with x := v } else { p with y := v }

/-- Mutable state of a `WCSScaler`: working CRS, the CRS definition the
four `SpatialParameter` instances captured at construction time (`pdef`),
and the per-axis min / max / size / subsetted slots. -/
structure ScalerState where
  crs : String
  pdef : CrsDef
  min : XY (Option ℚ)
  max : XY (Option ℚ)
  size : XY (Option ℤ)
  subsetted : XY Bool
deriving DecidableEq

/-- ASCII lower-casing, modelling Python `str.lower()` on axis names. -/
def lowerStr (s : String) : String :=
  ⟨s.data.map Char.toLower⟩

/-- Transcription of `SpatialParameter.is_x_dim`: resolve a dimension
label to an axis, trying the published CRS's axis names, then the native
CRS's axis names, then fixed alias sets; otherwise
`WCSScalerUnknownDimension`. -/
def is_x_dim (cdef ndef : CrsDef) (dimension : String) : Except Err Bool :=
  if dimension = lowerStr cdef.horizontal_coord then .ok true
  else if dimension = lowerStr cdef.vertical_coord then .ok false
  else if dimension = lowerStr ndef.horizontal_coord then .ok true
  else if dimension = lowerStr ndef.vertical_coord then .ok false
  else if dimension ∈ ["x", "i", "lon", "long", "lng", "longitude"] then .ok true
  else if dimension ∈ ["y", "j", "lat", "latitude"] then .ok false
  else .error .unknownDimension

/-- Label resolution as performed by the scaler's `SpatialParameter`
instances: against the CRS definition captured at construction (`s.pdef`)
and the layer's native CRS definition. -/
def resolveDim (L : Layer) (s : ScalerState) (dimension : String) : Except Err Bool :=
  is_x_dim s.pdef L.native_CRS_def dimension

/-- A Python number: either an `int` or a `float` (modelled exactly as a
rational). `set_size` treats the two differently. -/
inductive PyNum where
  | pint (z : ℤ)
  | pfloat (q : ℚ)
deriving DecidableEq

/-- Numeric value of a Python number. -/
def PyNum.toRat : PyNum → ℚ
  | .pint z => (z : ℚ)
  | .pfloat q => q

/-- Python subtraction: `int - int` is an `int`, otherwise a `float`. -/
def PyNum.sub : PyNum → PyNum → PyNum
  | .pint a, .pint b => .pint (a - b)
  | a, b => .pfloat (a.toRat - b.toRat)

/-- Python `int()` on a float: truncation toward zero. -/
def pyInt (q : ℚ) : ℤ :=
  if q < 0 then ⌈q⌉ else ⌊q⌋

/-- Transcription of `WCSScaler.set_size`: reject non-positive sizes with
`WCSScalarIllegalSize`, round floats via `int(size + 0.5)`, then store the
size if the axis's size slot is still unset, else raise
`WCSScalerOverspecifiedDimension`. -/
def set_size (L : Layer) (s : ScalerState) (dim : String) (size : PyNum) :
    Except Err ScalerState :=
  if size.toRat ≤ 0 then .error .illegalSize
  else
    let n : ℤ :=
      match size with
      | .pint z => z
      | .pfloat q => pyInt (q + 1/2)
    match resolveDim L s dim with
    | .error e => .error e
    | .ok b =>
      match s.size.get b with
      | none => .ok { s with size := s.size.set b (some n) }
      | some _ => .error .overspecifiedDimension

/-- Transcription of `WCSScaler.slice`: set both min and max of the axis
to the given value. (The Python method does not touch `subsetted`.) -/
def WCSScaler.slice (L : Layer) (s : ScalerState) (dimension : String) (value : ℚ) :
    Except Err ScalerState :=
  match resolveDim L s dimension with
  | .error e => .error e
  | .ok b =>
    .ok { s with min := s.min.set b (some value), max := s.max.set b (some value) }

/-- Transcription of `WCSScaler.trim`: set min and max of the axis to the
given range. (The Python method does not touch `subsetted`.) -/
def trim (L : Layer) (s : ScalerState) (dimension : String) (lower higher : ℚ) :
    Except Err ScalerState :=
  match resolveDim L s dimension with
  | .error e => .error e
  | .ok b =>
    .ok { s with min := s.min.set b (some lower), max := s.max.set b (some higher) }

/-- Transcription of `WCSScaler.is_slice`. -/
def is_slice (L : Layer) (s : ScalerState) (dim : String) : Except Err Bool :=
  match resolveDim L s dim with
  | .error e => .error e
  | .ok b => .ok (s.subsetted.get b && decide (s.min.get b = s.max.get b))

/-- Transcription of `WCSScaler.scale_axis`: refuse if the axis size is
already set, then derive a (float) size from extent, factor and the native
grid resolution of the current CRS, and store it via `set_size`. -/
def scale_axis (L : Layer) (s : ScalerState) (dimension : String) (factor : ℚ) :
    Except Err ScalerState :=
  match resolveDim L s dimension with
  | .error e => .error e
  | .ok b =>
    match s.size.get b with
    | some _ => .error .overspecifiedDimension
    | none =>
      match s.max.get b, s.min.get b with
      | some dimMax, some dimMin =>
        let res := if b then (L.grids s.crs).resolution.1 else (L.grids s.crs).resolution.2
        if res = 0 then .error .zeroDivisionError
        else set_size L s dimension (.pfloat |(dimMax - dimMin) * factor / res|)
      | _, _ => .error .pyTypeError

/-- Transcription of `WCSScaler.scale_size` (an alias of `set_size`). -/
def scale_size (L : Layer) (s : ScalerState) (dimension : String) (size : PyNum) :
    Except Err ScalerState :=
  set_size L s dimension size

/-- Transcription of `WCSScaler.scale_extent`: `set_size(dim, high - low)`. -/
def scale_extent (L : Layer) (s : ScalerState) (dimension : String) (low high : PyNum) :
    Except Err ScalerState :=
  set_size L s dimension (high.sub low)

/-- One axis of `quantise_to_resolution`: if the span is below
`abs(resolution * 1.5)`, snap max to `min + resolution` and force size 1;
returns the new (max, size) pair. -/
def quantAxis (r mn mx : ℚ) (sz : Option ℤ) : ℚ × Option ℤ :=
  if mx - mn < |r * (3/2)| then (mn + r, some 1) else (mx, sz)

/-- Apply `quantAxis` to the slot a label resolved to. Arithmetic on an
unset min/max is a Python `TypeError`. -/
def quantStep (r : ℚ) (b : Bool) (s : ScalerState) : Except Err ScalerState :=
  match s.max.get b, s.min.get b with
  | some mx, some mn =>
    .ok { s with max := s.max.set b (some (quantAxis r mn mx (s.size.get b)).1),
                 size := s.size.set b (quantAxis r mn mx (s.size.get b)).2 }
  | _, _ => .error .pyTypeError

/-- Transcription of `WCSScaler.quantise_to_resolution`: iterate over the
labels "x" then "y", pairing them with the grid's x and y resolutions. -/
def quantise_to_resolution (L : Layer) (g : Grid) (s : ScalerState) :
    Except Err ScalerState :=
  match resolveDim L s "x" with
  | .error e => .error e
  | .ok bx =>
    match quantStep g.resolution.1 bx s with
    | .error e => .error e
    | .ok s1 =>
      match resolveDim L s1 "y" with
      | .error e => .error e
      | .ok b2 => quantStep g.resolution.2 b2 s1

/-- The "neither axis subsetted" branch of `to_crs`: replace the whole
extent with the layer's cached bounding box for the target CRS and switch
the working CRS. -/
def bboxReplace (L : Layer) (s : ScalerState) (newCrs : String) : ScalerState :=
  { s with
    min := ⟨some (L.bboxes newCrs).left, some (L.bboxes newCrs).bottom⟩,
    max := ⟨some (L.bboxes newCrs).right, some (L.bboxes newCrs).top⟩,
    crs := newCrs }

/-- The first conditional block of `WCSScaler.to_crs`. In the "one axis
subsetted" branch the Python code reads `self.subsetted_x`, an attribute
that is never defined on `WCSScaler`, so that branch raises
`AttributeError`. -/
def toCrsStep1 (L : Layer) (s : ScalerState) (newCrs : String) :
    Except Err ScalerState :=
  if s.crs = newCrs then .ok s
  else if !s.subsetted.x && !s.subsetted.y then .ok (bboxReplace L s newCrs)
  else if !s.subsetted.x || !s.subsetted.y then .error .attributeError
  else .ok s

/-- The geometric reprojection block of `WCSScaler.to_crs`: build a point,
line or polygon from the current extent according to the slice flags,
reproject it through the geometry oracle, and consume the result. -/
def toCrsReproject (L : Layer) (G : Geo) (g : Grid) (s : ScalerState) (newCrs : String) :
    Except Err ScalerState :=
  match is_slice L s "x", is_slice L s "y" with
  | .ok sliceX, .ok sliceY =>
    if sliceX && sliceY then
      match s.min.x, s.min.y with
      | some mnx, some mny =>
        let p := G.projectPoint s.crs newCrs (mnx, mny)
        .ok { s with
              min := ⟨some p.1, some p.2⟩,
              max := ⟨some (p.1 + g.resolution.1), some (p.2 + g.resolution.2)⟩,
              size := ⟨some 1, some 1⟩,
              crs := newCrs }
      | _, _ => .error .pyTypeError
    else
      match s.min.x, s.min.y, s.max.x, s.max.y with
      | some mnx, some mny, some mxx, some mxy =>
        let bb :=
          if sliceX || sliceY then G.lineBBox s.crs newCrs (mnx, mny) (mxx, mxy)
          else G.polyBBox s.crs newCrs (mnx, mny) (mxx, mxy)
        let s2 := { s with
                    min := ⟨some bb.left, some bb.bottom⟩,
                    max := ⟨some bb.right, some bb.top⟩ }
        match quantise_to_resolution L g s2 with
        | .ok s3 => .ok { s3 with crs := newCrs }
        | .error e => .error e
      | _, _, _, _ => .error .pyTypeError
  | .error e, _ => .error e
  | _, .error e => .error e

/-- Transcription of `WCSScaler.to_crs`. -/
def to_crs (L : Layer) (G : Geo) (s : ScalerState) (newCrs : String) :
    Except Err ScalerState :=
  match toCrsStep1 L s newCrs with
  | .error e => .error e
  | .ok s1 =>
    if s1.crs = newCrs then quantise_to_resolution L (L.grids newCrs) s1
    else toCrsReproject L G (L.grids newCrs) s1 newCrs

/-- An affine transform with coefficients `(a b c, d e f)` mapping
`(u, v)` to `(a*u + b*v + c, d*u + e*v + f)`, as in the `affine` library. -/
structure Aff where
  a : ℚ
  b : ℚ
  c : ℚ
  d : ℚ
  e : ℚ
  f : ℚ
deriving DecidableEq

/-- Apply an affine transform to a point. -/
def Aff.apply (t : Aff) (p : ℚ × ℚ) : ℚ × ℚ :=
  (t.a * p.1 + t.b * p.2 + t.c, t.d * p.1 + t.e * p.2 + t.f)

/-- Composition of affine transforms (`Affine.__mul__`). -/
def Aff.comp (t u : Aff) : Aff :=
  ⟨t.a * u.a + t.b * u.d, t.a * u.b + t.b * u.e, t.a * u.c + t.b * u.f + t.c,
   t.d * u.a + t.e * u.d, t.d * u.b + t.e * u.e, t.d * u.c + t.e * u.f + t.f⟩

/-- `Affine.translation`. -/
def affTranslation (tx ty : ℚ) : Aff := ⟨1, 0, tx, 0, 1, ty⟩

/-- `Affine.scale`. -/
def affScale (sx sy : ℚ) : Aff := ⟨sx, 0, 0, 0, sy, 0⟩

/-- Transcription of `WCSScaler.affine`: default unset sizes through
`scale_axis(axis, 1.0)`, then compose translation to `(min.x, max.y)` with
scaling by `((max.x - min.x)/size.x, (min.y - max.y)/size.y)`. -/
def affine (L : Layer) (s : ScalerState) : Except Err Aff :=
  match (if s.size.x = none then scale_axis L s "x" 1 else .ok s) with
  | .error e => .error e
  | .ok sa =>
    match (if sa.size.y = none then scale_axis L sa "y" 1 else .ok sa) with
    | .error e => .error e
    | .ok sb =>
      match sb.max.x, sb.min.x, sb.size.x, sb.min.y, sb.max.y, sb.size.y with
      | some mxx, some mnx, some sx, some mny, some mxy, some sy =>
        if sx = 0 then .error .zeroDivisionError
        else if sy = 0 then .error .zeroDivisionError
        else
          .ok ((affTranslation mnx mxy).comp
                (affScale ((mxx - mnx) / (sx : ℚ)) ((mny - mxy) / (sy : ℚ))))
      | _, _, _, _, _, _ => .error .pyTypeError

/-- One of the four size-setting entry points of the scaler, with its
arguments. -/
inductive SizeOp where
  | bySetSize (size : PyNum)
  | byScaleAxis (factor : ℚ)
  | byScaleSize (size : PyNum)
  | byScaleExtent (low high : PyNum)

/-- Dispatch a size-setting operation to the corresponding method. -/
def applySizeOp (L : Layer) (s : ScalerState) (dimension : String) :
    SizeOp → Except Err ScalerState
  | .bySetSize n => set_size L s dimension n
  | .byScaleAxis f => scale_axis L s dimension f
  | .byScaleSize n => scale_size L s dimension n
  | .byScaleExtent lo hi => scale_extent L s dimension lo hi

/-- The error a second size-setting attempt on an already-sized axis
produces: `scale_axis` checks the slot first, while the other entry points
validate the requested size first. -/
def secondAttemptErr : SizeOp → Err
  | .bySetSize n => if n.toRat ≤ 0 then .illegalSize else .overspecifiedDimension
  | .byScaleAxis _ => .overspecifiedDimension
  | .byScaleSize n => if n.toRat ≤ 0 then .illegalSize else .overspecifiedDimension
  | .byScaleExtent lo hi =>
    if (hi.sub lo).toRat ≤ 0 then .illegalSize else .overspecifiedDimension

/-- The fallback alias set resolved to the x axis. -/
def xAliases : List String := ["x", "i", "lon", "long", "lng", "longitude"]

/-- The fallback alias set resolved to the y axis. -/
def yAliases : List String := ["y", "j", "lat", "latitude"]

/-- Modelled from the spec: the ordered label-resolution rule table of
section 3 — published CRS horizontal/vertical name, then native CRS
horizontal/vertical name, then the fixed fallback alias sets. -/
def specRules (cdef ndef : CrsDef) : List (List String × Bool) :=
  [([lowerStr cdef.horizontal_coord], true),
   ([lowerStr cdef.vertical_coord], false),
   ([lowerStr ndef.horizontal_coord], true),
   ([lowerStr ndef.vertical_coord], false),
   (xAliases, true),
   (yAliases, false)]

/-- Modelled from the spec: `resolve` returns the classification of the
first rule whose label set contains the dimension label, and fails with
`UnknownDimension` when no rule matches. -/
def resolveSpec (cdef ndef : CrsDef) (dimension : String) : Except Err Bool :=
  match (specRules cdef ndef).find? (fun r => decide (dimension ∈ r.1)) with
  | some r => .ok r.2
  | none => .error .unknownDimension

/-- A CRS definition with standard axis names, used for concrete runs. -/
def testCrsDef : CrsDef := ⟨"Longitude", "Latitude"⟩

/-- A concrete layer: native CRS "NATIVE", every grid has resolution
`(10, 10)`, every cached bounding box is `[0, 100] × [0, 100]`. -/
def testLayer : Layer :=
  { published_CRSs := fun _ => testCrsDef,
    native_CRS := "NATIVE",
    native_CRS_def := testCrsDef,
    grids := fun _ => ⟨(10, 10)⟩,
    bboxes := fun _ => ⟨0, 100, 0, 100⟩ }

/-- A concrete geometry oracle: reprojection is the identity, bounding
boxes come straight from the two given corners. -/
def testGeo : Geo :=
  { projectPoint := fun _ _ p => p,
    lineBBox := fun _ _ p q => ⟨p.1, q.1, p.2, q.2⟩,
    polyBBox := fun _ _ p q => ⟨p.1, q.1, p.2, q.2⟩ }

/-- A freshly constructed scaler on `testLayer` (native CRS, all slots
unset, nothing subsetted). -/
def freshScaler : ScalerState :=
  { crs := "NATIVE", pdef := testCrsDef,
    min := ⟨none, none⟩, max := ⟨none, none⟩,
    size := ⟨none, none⟩, subsetted := ⟨false, false⟩ }

/-- A scaler on `testLayer` whose x size has been set to 5 (as by
`set_size("x", 5)`). -/
def sizedXScaler : ScalerState :=
  { crs := "NATIVE", pdef := testCrsDef,
    min := ⟨none, none⟩, max := ⟨none, none⟩,
    size := ⟨some 5, none⟩, subsetted := ⟨false, false⟩ }

/-- A scaler with both sizes already set and an extent smaller than 1.5
grid cells on both axes. -/
def sizedSmallScaler : ScalerState :=
  { crs := "NATIVE", pdef := testCrsDef,
    min := ⟨some 0, some 0⟩, max := ⟨some 5, some 5⟩,
    size := ⟨some 5, some 7⟩, subsetted := ⟨false, false⟩ }

/-- A grid with a negative y resolution, as is standard for north-up
rasters. -/
def negResGrid : Grid := ⟨(10, -25)⟩

/-- A scaler with an established extent of span 100 on x and span 30 on
y. -/
def spanScaler : ScalerState :=
  { crs := "NATIVE", pdef := testCrsDef,
    min := ⟨some 0, some 0⟩, max := ⟨some 100, some 30⟩,
    size := ⟨none, none⟩, subsetted := ⟨false, false⟩ }

/-- A scaler on which exactly one axis (x) has been marked subsetted. -/
def oneSubsettedScaler : ScalerState :=
  { crs := "NATIVE", pdef := testCrsDef,
    min := ⟨some 5, none⟩, max := ⟨some 5, none⟩,
    size := ⟨none, none⟩, subsetted := ⟨true, false⟩ }

/-- A scaler with extent and positive sizes fully established. -/
def affReadyScaler : ScalerState :=
  { crs := "NATIVE", pdef := testCrsDef,
    min := ⟨some 0, some 0⟩, max := ⟨some 100, some 50⟩,
    size := ⟨some 4, some 5⟩, subsetted := ⟨false, false⟩ }

/-- The state reached from `freshScaler` by `to_crs("OTHER")`: the cached
bounding box of "OTHER", unquantised (spans exceed 1.5 cells). -/
def toCrsIdemState : ScalerState :=
  { crs := "OTHER", pdef := testCrsDef,
    min := ⟨some 0, some 0⟩, max := ⟨some 100, some 100⟩,
    size := ⟨none, none⟩, subsetted := ⟨false, false⟩ }

theorem resolveDim_error_eq {L : Layer} {s : ScalerState} {d : String} {e : Err}
    (h : resolveDim L s d = .error e) : e = .unknownDimension := by
  unfold resolveDim is_x_dim at h
  split_ifs at h <;> simp_all

theorem resolveDim_pdef_eq {L : Layer} {s t : ScalerState} (d : String)
    (h : t.pdef = s.pdef) : resolveDim L t d = resolveDim L s d := by
  simp [resolveDim, h]

theorem testLayer_native : testLayer.native_CRS_def = testCrsDef := rfl

theorem testLayer_grids (c : String) : testLayer.grids c = ⟨(10, 10)⟩ := rfl

theorem testLayer_bboxes (c : String) : testLayer.bboxes c = ⟨0, 100, 0, 100⟩ := rfl

theorem resolveDim_x_ok (s : ScalerState) (h : s.pdef = testCrsDef) :
    resolveDim testLayer s "x" = .ok true := by
  simp only [resolveDim, testLayer_native, h]
  decide

theorem resolveDim_y_ok (s : ScalerState) (h : s.pdef = testCrsDef) :
    resolveDim testLayer s "y" = .ok false := by
  simp only [resolveDim, testLayer_native, h]
  decide

theorem quantAxis_idem (r mn mx : ℚ) (sz : Option ℤ) :
    quantAxis r mn (quantAxis r mn mx sz).1 (quantAxis r mn mx sz).2
      = quantAxis r mn mx sz := by
  unfold quantAxis
  by_cases h : mx - mn < |r * (3/2)|
  · simp only [if_pos h]
    split_ifs <;> simp
  · simp [h]

theorem quantAxis_offset (r mn : ℚ) :
    quantAxis r mn (mn + r) (some 1) = (mn + r, some 1) := by
  unfold quantAxis
  split_ifs <;> simp

theorem quantise_eq (L : Layer) (g : Grid) (s : ScalerState) {mnx mxx mny mxy : ℚ}
    (hx : resolveDim L s "x" = .ok true) (hy : resolveDim L s "y" = .ok false)
    (h1 : s.min.x = some mnx) (h2 : s.max.x = some mxx)
    (h3 : s.min.y = some mny) (h4 : s.max.y = some mxy) :
    quantise_to_resolution L g s = .ok
      { s with
        max := ⟨some (quantAxis g.resolution.1 mnx mxx s.size.x).1,
                some (quantAxis g.resolution.2 mny mxy s.size.y).1⟩,
        size := ⟨(quantAxis g.resolution.1 mnx mxx s.size.x).2,
                 (quantAxis g.resolution.2 mny mxy s.size.y).2⟩ } := by
  obtain ⟨c, pd, ⟨n1, n2⟩, ⟨m1, m2⟩, ⟨z1, z2⟩, sb⟩ := s
  simp only [resolveDim] at hx hy
  dsimp only at h1 h2 h3 h4
  subst h1 h2 h3 h4
  simp only [quantise_to_resolution, quantStep, resolveDim, XY.get, XY.set, hx, hy]
  simp [hy]

theorem quantStep_ok_inv {r : ℚ} {b : Bool} {s u : ScalerState}
    (h : quantStep r b s = .ok u) :
    ∃ mx mn, s.max.get b = some mx ∧ s.min.get b = some mn ∧
      u = { s with max := s.max.set b (some (quantAxis r mn mx (s.size.get b)).1),
                   size := s.size.set b (quantAxis r mn mx (s.size.get b)).2 } := by
  unfold quantStep at h
  split at h
  · rename_i mx mn hmx hmn
    injection h with h
    exact ⟨mx, mn, hmx, hmn, h.symm⟩
  · simp at h

theorem quantise_ok_min_max {L : Layer} {g : Grid} {s t : ScalerState}
    (hx : resolveDim L s "x" = .ok true) (hy : resolveDim L s "y" = .ok false)
    (h : quantise_to_resolution L g s = .ok t) :
    (∃ v, s.min.x = some v) ∧ (∃ v, s.max.x = some v)
    ∧ (∃ v, s.min.y = some v) ∧ (∃ v, s.max.y = some v) := by
  unfold quantise_to_resolution at h
  simp only [hx] at h
  cases h1 : quantStep g.resolution.1 true s with
  | error e =>
    simp only [h1] at h
    exact absurd h (by simp)
  | ok s1 =>
    simp only [h1] at h
    obtain ⟨mx, mn, hmx, hmn, hu⟩ := quantStep_ok_inv h1
    have hpd : s1.pdef = s.pdef := by rw [hu]
    rw [resolveDim_pdef_eq "y" hpd, hy] at h
    cases h2 : quantStep g.resolution.2 false s1 with
    | error e =>
      simp only [h2] at h
      exact absurd h (by simp)
    | ok s2 =>
      obtain ⟨mx2, mn2, hmx2, hmn2, _⟩ := quantStep_ok_inv h2
      rw [hu] at hmx2 hmn2
      simp only [XY.get, XY.set, if_true] at hmx hmn hmx2 hmn2
      simp only [Bool.false_eq_true, if_false] at hmx2 hmn2
      exact ⟨⟨mn, hmn⟩, ⟨mx, hmx⟩, ⟨mn2, hmn2⟩, ⟨mx2, hmx2⟩⟩

theorem quantise_fix (L : Layer) (g : Grid) (t : ScalerState) {mnx mxx mny mxy : ℚ}
    (hx : resolveDim L t "x" = .ok true) (hy : resolveDim L t "y" = .ok false)
    (h1 : t.min.x = some mnx) (h2 : t.max.x = some mxx)
    (h3 : t.min.y = some mny) (h4 : t.max.y = some mxy)
    (hq1 : quantAxis g.resolution.1 mnx mxx t.size.x = (mxx, t.size.x))
    (hq2 : quantAxis g.resolution.2 mny mxy t.size.y = (mxy, t.size.y)) :
    quantise_to_resolution L g t = .ok t := by
  rw [quantise_eq L g t hx hy h1 h2 h3 h4, hq1, hq2]
  obtain ⟨c, pd, nn, ⟨m1, m2⟩, ⟨z1, z2⟩, sb⟩ := t
  dsimp only at h2 h4
  subst h2 h4
  rfl

theorem to_crs_of_fix {L : Layer} {G : Geo} {t : ScalerState} {X : String}
    (hc : t.crs = X) (hq : quantise_to_resolution L (L.grids X) t = .ok t) :
    to_crs L G t X = .ok t := by
  unfold to_crs toCrsStep1
  simp [hc, hq]

theorem abs_mul_three_halves (r : ℚ) : |r * (3/2)| = 3/2 * |r| := by
  rw [abs_mul, abs_of_pos (by norm_num : (0:ℚ) < 3/2), mul_comm]

/-- C1: with exactly one axis subsetted and a different target CRS,
`to_crs` reads the undefined attributes `self.subsetted_x` /
`self.subsetted_y` and therefore raises `AttributeError` instead of
replacing the unsubsetted axis's extent with the layer bounding box. -/
theorem to_crs_one_axis_subsetted_raises (L : Layer) (G : Geo) (s : ScalerState)
    (X : String) (hc : s.crs ≠ X) (hsub : s.subsetted.x ≠ s.subsetted.y) :
    to_crs L G s X = .error .attributeError := by
  unfold to_crs toCrsStep1
  cases hx : s.subsetted.x <;> cases hy : s.subsetted.y <;> simp_all

theorem to_crs_one_axis_subsetted_raises_witness :
    to_crs testLayer testGeo oneSubsettedScaler "OTHER" = .error .attributeError :=
  to_crs_one_axis_subsetted_raises testLayer testGeo oneSubsettedScaler "OTHER"
    (by decide) (by decide)

/-- C4 (amended): a second attempt to set an already-set axis size always
fails, but with which error depends on the entry point: `scale_axis`
checks the slot first and raises `OverspecifiedDimension` always, while
`set_size`, `scale_size` and `scale_extent` validate the requested size
first and raise `IllegalSize` when it is non-positive,
`OverspecifiedDimension` otherwise. -/
theorem second_size_attempt_always_fails (L : Layer) (s : ScalerState)
    (d : String) (b : Bool) (n : ℤ) (op : SizeOp)
    (hres : resolveDim L s d = .ok b) (hset : s.size.get b = some n) :
    applySizeOp L s d op = .error (secondAttemptErr op) := by
  cases op with
  | bySetSize sz =>
    unfold applySizeOp set_size secondAttemptErr
    by_cases hsz : sz.toRat ≤ 0 <;> simp [hsz, hres, hset]
  | byScaleAxis f =>
    unfold applySizeOp scale_axis secondAttemptErr
    simp [hres, hset]
  | byScaleSize sz =>
    unfold applySizeOp scale_size set_size secondAttemptErr
    by_cases hsz : sz.toRat ≤ 0 <;> simp [hsz, hres, hset]
  | byScaleExtent lo hi =>
    unfold applySizeOp scale_extent set_size secondAttemptErr
    by_cases hsz : (hi.sub lo).toRat ≤ 0 <;> simp [hsz, hres, hset]

theorem second_size_attempt_always_fails_witness :
    applySizeOp testLayer sizedXScaler "x" (.byScaleAxis 1)
      = .error (secondAttemptErr (.byScaleAxis 1)) :=
  second_size_attempt_always_fails testLayer sizedXScaler "x" true 5
    (.byScaleAxis 1) (by decide) (by decide)

/-- C3 (amended): quantisation snaps an axis exactly when the extent span
is below 1.5 times the ABSOLUTE value of the grid resolution for that
axis (the code compares against `abs(resolution * 1.5)`); in that case
max becomes `min + resolution` and size becomes 1, otherwise max and size
are unchanged; min is never modified. -/
theorem quantise_snaps_iff_span_below (L : Layer) (g : Grid) (s : ScalerState)
    (mnx mxx mny mxy : ℚ)
    (hx : resolveDim L s "x" = .ok true) (hy : resolveDim L s "y" = .ok false)
    (h1 : s.min.x = some mnx) (h2 : s.max.x = some mxx)
    (h3 : s.min.y = some mny) (h4 : s.max.y = some mxy) :
    quantise_to_resolution L g s = .ok
      { s with
        max := ⟨some (if mxx - mnx < 3/2 * |g.resolution.1|
                      then mnx + g.resolution.1 else mxx),
                some (if mxy - mny < 3/2 * |g.resolution.2|
                      then mny + g.resolution.2 else mxy)⟩,
        size := ⟨if mxx - mnx < 3/2 * |g.resolution.1| then some 1 else s.size.x,
                 if mxy - mny < 3/2 * |g.resolution.2| then some 1 else s.size.y⟩ } := by
  rw [quantise_eq L g s hx hy h1 h2 h3 h4]
  simp only [quantAxis, abs_mul_three_halves, apply_ite Prod.fst, apply_ite Prod.snd]

theorem quantise_snaps_iff_span_below_witness :
    quantise_to_resolution testLayer negResGrid spanScaler = .ok
      { spanScaler with
        max := ⟨some (if (100:ℚ) - 0 < 3/2 * |negResGrid.resolution.1|
                      then 0 + negResGrid.resolution.1 else 100),
                some (if (30:ℚ) - 0 < 3/2 * |negResGrid.resolution.2|
                      then 0 + negResGrid.resolution.2 else 30)⟩,
        size := ⟨if (100:ℚ) - 0 < 3/2 * |negResGrid.resolution.1|
                 then some 1 else spanScaler.size.x,
                 if (30:ℚ) - 0 < 3/2 * |negResGrid.resolution.2|
                 then some 1 else spanScaler.size.y⟩ } :=
  quantise_snaps_iff_span_below testLayer negResGrid spanScaler 0 100 0 30
    (by decide) (by decide) rfl rfl rfl rfl

/-- C7: with extent and positive sizes established, `affine` returns the
transform translating to `(min.x, max.y)` and scaling by
`((max.x - min.x)/size.x, (min.y - max.y)/size.y)`: pixel `(0,0)` maps to
`(min.x, max.y)`, pixel `(size.x, size.y)` maps to `(max.x, min.y)`, and
the rotation coefficients are zero. -/
theorem affine_corner_mapping (L : Layer) (s : ScalerState)
    (mnx mxx mny mxy : ℚ) (sx sy : ℤ)
    (h1 : s.min.x = some mnx) (h2 : s.max.x = some mxx)
    (h3 : s.min.y = some mny) (h4 : s.max.y = some mxy)
    (h5 : s.size.x = some sx) (h6 : s.size.y = some sy)
    (hsx : 0 < sx) (hsy : 0 < sy) :
    ∃ t, affine L s = .ok t
      ∧ t.apply (0, 0) = (mnx, mxy)
      ∧ t.apply ((sx : ℚ), (sy : ℚ)) = (mxx, mny)
      ∧ t.a = (mxx - mnx) / (sx : ℚ) ∧ t.e = (mny - mxy) / (sy : ℚ)
      ∧ t.b = 0 ∧ t.d = 0 := by
  have hx0 : ((sx : ℤ) : ℚ) ≠ 0 := by exact_mod_cast hsx.ne'
  have hy0 : ((sy : ℤ) : ℚ) ≠ 0 := by exact_mod_cast hsy.ne'
  refine ⟨(affTranslation mnx mxy).comp
      (affScale ((mxx - mnx) / (sx : ℚ)) ((mny - mxy) / (sy : ℚ))),
    ?_, ?_, ?_, ?_, ?_, ?_, ?_⟩
  · simp [affine, h1, h2, h3, h4, h5, h6, hsx.ne', hsy.ne']
  · simp [Aff.apply, Aff.comp, affTranslation, affScale]
  · simp only [Aff.apply, Aff.comp, affTranslation, affScale, Prod.mk.injEq]
    constructor
    · field_simp
    · field_simp
  · simp [Aff.comp, affTranslation, affScale]
  · simp [Aff.comp, affTranslation, affScale]
  · simp [Aff.comp, affTranslation, affScale]
  · simp [Aff.comp, affTranslation, affScale]

theorem affine_corner_mapping_witness :
    ∃ t, affine testLayer affReadyScaler = .ok t
      ∧ t.apply (0, 0) = (0, 50)
      ∧ t.apply (((4 : ℤ) : ℚ), ((5 : ℤ) : ℚ)) = (100, 0)
      ∧ t.a = (100 - 0) / ((4 : ℤ) : ℚ) ∧ t.e = (0 - 50) / ((5 : ℤ) : ℚ)
      ∧ t.b = 0 ∧ t.d = 0 :=
  affine_corner_mapping testLayer affReadyScaler 0 100 0 50 4 5
    rfl rfl rfl rfl rfl rfl (by decide) (by decide)

theorem quantise_result_fix {L : Layer} (g : Grid) (s : ScalerState)
    {mnx mxx mny mxy : ℚ}
    (hx : resolveDim L s "x" = .ok true) (hy : resolveDim L s "y" = .ok false)
    (h1 : s.min.x = some mnx) (h2 : s.max.x = some mxx)
    (h3 : s.min.y = some mny) (h4 : s.max.y = some mxy) :
    quantise_to_resolution L g
      { s with
        max := ⟨some (quantAxis g.resolution.1 mnx mxx s.size.x).1,
                some (quantAxis g.resolution.2 mny mxy s.size.y).1⟩,
        size := ⟨(quantAxis g.resolution.1 mnx mxx s.size.x).2,
                 (quantAxis g.resolution.2 mny mxy s.size.y).2⟩ }
      = .ok
      { s with
        max := ⟨some (quantAxis g.resolution.1 mnx mxx s.size.x).1,
                some (quantAxis g.resolution.2 mny mxy s.size.y).1⟩,
        size := ⟨(quantAxis g.resolution.1 mnx mxx s.size.x).2,
                 (quantAxis g.resolution.2 mny mxy s.size.y).2⟩ } := by
  apply quantise_fix
  · exact (resolveDim_pdef_eq "x" rfl).trans hx
  · exact (resolveDim_pdef_eq "y" rfl).trans hy
  · exact h1
  · rfl
  · exact h3
  · rfl
  · exact quantAxis_idem g.resolution.1 mnx mxx s.size.x
  · exact quantAxis_idem g.resolution.2 mny mxy s.size.y

theorem reproject_else_ok {L : Layer} {G : Geo} {s s₁ : ScalerState} {X : String}
    (hx : resolveDim L s "x" = .ok true) (hy : resolveDim L s "y" = .ok false)
    (bb : LayerBBox)
    (h : (match quantise_to_resolution L (L.grids X)
            { s with min := ⟨some bb.left, some bb.bottom⟩,
                     max := ⟨some bb.right, some bb.top⟩ } with
          | Except.ok s3 => Except.ok { s3 with crs := X }
          | Except.error e => Except.error e) = Except.ok s₁) :
    to_crs L G s₁ X = .ok s₁ := by
  cases hq : quantise_to_resolution L (L.grids X)
      { s with min := ⟨some bb.left, some bb.bottom⟩,
               max := ⟨some bb.right, some bb.top⟩ } with
  | error e =>
    rw [hq] at h
    exact absurd h (by simp)
  | ok s3 =>
    rw [hq] at h
    injection h with h
    subst h
    rw [quantise_eq L (L.grids X)
        { s with min := ⟨some bb.left, some bb.bottom⟩,
                 max := ⟨some bb.right, some bb.top⟩ }
        ((resolveDim_pdef_eq "x" rfl).trans hx)
        ((resolveDim_pdef_eq "y" rfl).trans hy) rfl rfl rfl rfl] at hq
    injection hq with hq
    subst hq
    apply to_crs_of_fix rfl
    exact quantise_result_fix (L.grids X)
      { s with crs := X, min := ⟨some bb.left, some bb.bottom⟩,
               max := ⟨some bb.right, some bb.top⟩ }
      ((resolveDim_pdef_eq "x" rfl).trans hx)
      ((resolveDim_pdef_eq "y" rfl).trans hy) rfl rfl rfl rfl

/-- C8: calling `to_crs` twice in a row with the same target CRS is
idempotent after the first successful call: the second call only re-runs
`quantise_to_resolution`, which is the identity on the already-quantised
(or point-snapped) state. Stated for layers whose configuration resolves
the labels "x" and "y" to the x and y axes, as every well-formed CRS
definition does. -/
theorem to_crs_repeat_noop (L : Layer) (G : Geo) (s s₁ : ScalerState) (X : String)
    (hx : resolveDim L s "x" = .ok true) (hy : resolveDim L s "y" = .ok false)
    (h : to_crs L G s X = .ok s₁) :
    to_crs L G s₁ X = .ok s₁ := by
  unfold to_crs at h
  by_cases hcs : s.crs = X
  · have hstep : toCrsStep1 L s X = .ok s := by simp [toCrsStep1, hcs]
    simp only [hstep] at h
    rw [if_pos hcs] at h
    obtain ⟨⟨mnx, e1⟩, ⟨mxx, e2⟩, ⟨mny, e3⟩, ⟨mxy, e4⟩⟩ := quantise_ok_min_max hx hy h
    rw [quantise_eq L (L.grids X) s hx hy e1 e2 e3 e4] at h
    injection h with h
    subst h
    apply to_crs_of_fix
    · exact hcs
    · exact quantise_result_fix (L.grids X) s hx hy e1 e2 e3 e4
  · cases hbx : s.subsetted.x <;> cases hby : s.subsetted.y
    · have hstep : toCrsStep1 L s X = .ok (bboxReplace L s X) := by
        simp [toCrsStep1, hcs, hbx, hby]
      simp only [hstep] at h
      have hbc : (bboxReplace L s X).crs = X := rfl
      rw [if_pos hbc] at h
      rw [quantise_eq L (L.grids X) (bboxReplace L s X)
          ((resolveDim_pdef_eq "x" rfl).trans hx)
          ((resolveDim_pdef_eq "y" rfl).trans hy) rfl rfl rfl rfl] at h
      injection h with h
      subst h
      apply to_crs_of_fix rfl
      exact quantise_result_fix (L.grids X) (bboxReplace L s X)
        ((resolveDim_pdef_eq "x" rfl).trans hx)
        ((resolveDim_pdef_eq "y" rfl).trans hy) rfl rfl rfl rfl
    · have hstep : toCrsStep1 L s X = .error .attributeError := by
        simp [toCrsStep1, hcs, hbx, hby]
      simp only [hstep] at h
      exact absurd h (by simp)
    · have hstep : toCrsStep1 L s X = .error .attributeError := by
        simp [toCrsStep1, hcs, hbx, hby]
      simp only [hstep] at h
      exact absurd h (by simp)
    · have hstep : toCrsStep1 L s X = .ok s := by simp [toCrsStep1, hcs, hbx, hby]
      simp only [hstep] at h
      rw [if_neg hcs] at h
      unfold toCrsReproject at h
      have hsl1 : is_slice L s "x" = .ok (decide (s.min.x = s.max.x)) := by
        simp [is_slice, hx, XY.get, hbx]
      have hsl2 : is_slice L s "y" = .ok (decide (s.min.y = s.max.y)) := by
        simp [is_slice, hy, XY.get, hby]
      simp only [hsl1, hsl2] at h
      by_cases hd : s.min.x = s.max.x ∧ s.min.y = s.max.y
      · have hcond : (decide (s.min.x = s.max.x) && decide (s.min.y = s.max.y)) = true := by
          simp [hd.1, hd.2]
        rw [if_pos hcond] at h
        cases hmnx : s.min.x with
        | none =>
          simp only [hmnx] at h
          exact absurd h (by simp)
        | some mnx =>
          cases hmny : s.min.y with
          | none =>
            simp only [hmnx, hmny] at h
            exact absurd h (by simp)
          | some mny =>
            simp only [hmnx, hmny] at h
            injection h with h
            subst h
            apply to_crs_of_fix rfl
            apply quantise_fix
            · exact (resolveDim_pdef_eq "x" rfl).trans hx
            · exact (resolveDim_pdef_eq "y" rfl).trans hy
            · rfl
            · rfl
            · rfl
            · rfl
            · exact quantAxis_offset (L.grids X).resolution.1
                (G.projectPoint s.crs X (mnx, mny)).1
            · exact quantAxis_offset (L.grids X).resolution.2
                (G.projectPoint s.crs X (mnx, mny)).2
      · have hcond : ¬ ((decide (s.min.x = s.max.x) && decide (s.min.y = s.max.y)) = true) := by
          simpa [Bool.and_eq_true, decide_eq_true_eq] using hd
        rw [if_neg hcond] at h
        cases hmnx : s.min.x with
        | none =>
          simp only [hmnx] at h
          exact absurd h (by simp)
        | some mnx =>
        cases hmny : s.min.y with
        | none =>
          simp only [hmnx, hmny] at h
          exact absurd h (by simp)
        | some mny =>
        cases hmxx : s.max.x with
        | none =>
          simp only [hmnx, hmny, hmxx] at h
          exact absurd h (by simp)
        | some mxx =>
        cases hmxy : s.max.y with
        | none =>
          simp only [hmnx, hmny, hmxx, hmxy] at h
          exact absurd h (by simp)
        | some mxy =>
        simp only [hmnx, hmny, hmxx, hmxy] at h
        exact reproject_else_ok hx hy _ h

theorem to_crs_repeat_noop_witness :
    to_crs testLayer testGeo toCrsIdemState "OTHER" = .ok toCrsIdemState :=
  to_crs_repeat_noop testLayer testGeo freshScaler toCrsIdemState "OTHER"
    (by decide) (by decide)
    (by
      have hne : ¬ ("NATIVE" : String) = "OTHER" := by decide
      norm_num [to_crs, toCrsStep1, bboxReplace, quantise_to_resolution,
        quantStep, quantAxis, resolveDim_x_ok, resolveDim_y_ok, testLayer_grids,
        testLayer_bboxes, freshScaler, toCrsIdemState, XY.get, XY.set,
        abs_of_nonneg, hne])

/-- C2: on the code as written, `slice` and `trim` set min and max of the
resolved axis but leave the `subsetted` flag untouched (still `False` on a
fresh scaler), contradicting the claim that the axis is marked subsetted;
the min/max part of the claim does hold. -/
theorem slice_trim_do_not_mark_subsetted :
    (WCSScaler.slice testLayer freshScaler "x" 5).map
        (fun t => (t.min.x, t.max.x, t.subsetted.x, t.subsetted.y))
      = .ok (some 5, some 5, false, false)
    ∧ (trim testLayer freshScaler "y" 0 10).map
        (fun t => (t.min.y, t.max.y, t.subsetted.x, t.subsetted.y))
      = .ok (some 0, some 10, false, false) := by
  constructor <;>
    simp [WCSScaler.slice, trim, resolveDim_x_ok, resolveDim_y_ok, freshScaler,
      XY.set, Except.map]

/-- C5: `set_size` fails with `IllegalSize` exactly when the requested
size is non-positive, and a positive fractional size is rounded to the
nearest integer with halves rounding up: 3.4 is stored as 3 and 3.5 as
4. -/
theorem set_size_illegal_iff_nonpos_and_rounds :
    (∀ (L : Layer) (s : ScalerState) (dim : String) (size : PyNum),
        set_size L s dim size = .error .illegalSize ↔ size.toRat ≤ 0)
    ∧ (set_size testLayer freshScaler "x" (.pfloat (17/5))).map (fun t => t.size.x)
        = .ok (some 3)
    ∧ (set_size testLayer freshScaler "x" (.pfloat (7/2))).map (fun t => t.size.x)
        = .ok (some 4) := by
  refine ⟨fun L s dim size => ?_, ?_, ?_⟩
  · unfold set_size
    by_cases hsz : size.toRat ≤ 0
    · simp [hsz]
    · simp only [if_neg hsz]
      cases hr : resolveDim L s dim with
      | error e =>
        have := resolveDim_error_eq hr
        subst this
        simp [hsz]
      | ok b =>
        cases hslot : s.size.get b <;> simp [hslot, hsz]
  · norm_num [set_size, pyInt, resolveDim_x_ok, freshScaler, PyNum.toRat,
      XY.get, XY.set, Except.map]
  · norm_num [set_size, pyInt, resolveDim_x_ok, freshScaler, PyNum.toRat,
      XY.get, XY.set, Except.map]

/-- C6: a requested size strictly between 0 and 0.5 passes the positivity
check but rounds down to 0, so `set_size("x", 0.4)` succeeds and stores
the non-positive size 0, violating the claimed invariant that stored
sizes are always positive. -/
theorem set_size_stores_zero_for_small_fraction :
    (set_size testLayer freshScaler "x" (.pfloat (2/5))).map (fun t => t.size.x)
      = .ok (some 0) := by
  norm_num [set_size, pyInt, resolveDim_x_ok, freshScaler, PyNum.toRat,
    XY.get, XY.set, Except.map]

/-- C9: `is_x_dim` is total — every label is either classified as x or y
or rejected with `UnknownDimension` — and it agrees with the
specification's ordered rule table (published CRS axis names, then native
CRS axis names, then the fixed fallback alias sets). -/
theorem is_x_dim_total_and_matches_spec :
    (∀ (cdef ndef : CrsDef) (d : String),
        is_x_dim cdef ndef d = resolveSpec cdef ndef d)
    ∧ (∀ (cdef ndef : CrsDef) (d : String),
        (∃ v, is_x_dim cdef ndef d = .ok v)
        ∨ is_x_dim cdef ndef d = .error .unknownDimension) := by
  constructor
  · intro c n d
    unfold is_x_dim resolveSpec specRules
    by_cases h1 : d = lowerStr c.horizontal_coord <;>
      by_cases h2 : d = lowerStr c.vertical_coord <;>
        by_cases h3 : d = lowerStr n.horizontal_coord <;>
          by_cases h4 : d = lowerStr n.vertical_coord <;>
            by_cases h5 : d ∈ xAliases <;>
              by_cases h6 : d ∈ yAliases <;>
                simp_all [xAliases, yAliases, List.find?]
  · intro c n d
    unfold is_x_dim
    split_ifs <;> simp

/-- C10: on a scaler whose sizes are already set (to 5 and 7), a `to_crs`
call to the current CRS runs the quantisation branch, which succeeds and
overwrites both stored sizes with 1 directly — no
`OverspecifiedDimension` is raised, bypassing the set-at-most-once guard
of the explicit size-setting operations. -/
theorem quantise_overwrites_set_size :
    sizedSmallScaler.size = ⟨some 5, some 7⟩
    ∧ (to_crs testLayer testGeo sizedSmallScaler "NATIVE").map
        (fun t => (t.size.x, t.size.y))
      = .ok (some 1, some 1) := by
  constructor
  · rfl
  · norm_num [to_crs, toCrsStep1, quantise_to_resolution, quantStep, quantAxis,
      resolveDim_x_ok, resolveDim_y_ok, testLayer_grids, sizedSmallScaler,
      XY.get, XY.set, Except.map]

/-- C3 counterexample: with the y resolution −25 and a y extent of
`[0, 30]` the claim's condition `s < 1.5r` is false (30 ≮ −37.5), so the
claim predicts the extent is left unchanged; but the code compares the
span against `abs(r * 1.5) = 37.5`, so it snaps max.y to `min + r = −25`
and forces size 1. -/
theorem quantise_negative_resolution_counterexample :
    ¬ ((30 : ℚ) - 0 < 3/2 * (-25))
    ∧ (quantise_to_resolution testLayer negResGrid spanScaler).map
        (fun t => (t.max.y, t.size.y))
      = .ok (some (-25), some 1) := by
  constructor
  · norm_num
  · norm_num [quantise_to_resolution, quantStep, quantAxis, resolveDim_x_ok,
      resolveDim_y_ok, negResGrid, spanScaler, XY.get, XY.set, Except.map,
      abs_of_nonneg]

/-- C4 counterexample: after `set_size("x", 5)`, a second attempt
`set_size("x", 0)` raises `IllegalSize`, not `OverspecifiedDimension`,
because the size-positivity check runs before the already-set check. -/
theorem second_set_size_nonpositive_counterexample :
    set_size testLayer freshScaler "x" (.pint 5) = .ok sizedXScaler
    ∧ set_size testLayer sizedXScaler "x" (.pint 0) = .error .illegalSize
    ∧ Err.illegalSize ≠ Err.overspecifiedDimension := by
  refine ⟨?_, ?_, by simp⟩
  · norm_num [set_size, resolveDim_x_ok, freshScaler, sizedXScaler,
      PyNum.toRat, XY.get, XY.set]
  · norm_num [set_size, PyNum.toRat]
